import Mathlib

/-!
Verification development for the DeepLearner backend (`src/Server.js`).

The server is a small Express application with three routes relevant here:
`GET /api/courses`, `GET /api/courses/:id` and `POST /api/enroll`, plus the
helper `sendMailSafe`.  The embedding below translates the JavaScript
handlers into pure Lean functions.  External effects are made explicit:

* the MySQL pool is modelled by a `DbState` (the `enrollments` table, the
  next auto-increment id, and a flag saying whether the insert fails), and
  course queries by a `QueryOutcome` (a row set or a store failure);
* the nodemailer transporter is modelled by
  `Transporter := Option SendFn`, where the send function may fail;
* JavaScript runtime values appearing in request bodies and table columns
  are modelled by `JVal`, with JavaScript truthiness and string coercion;
* `JSON.parse` is modelled by `jsonParse`, a whole-input JSON parser over
  the JSON grammar with integer numerals (the syllabus values the server
  stores are JSON arrays of items; no fractional numerals occur).

Handlers return, besides the HTTP response, the resulting store state, the
log entries written, and the list of recipients passed to `sendMailSafe`,
so that "no notification is attempted" and "the insert is not rolled back"
are statable.
-/

namespace DeepLearner

/-- Model of a JavaScript runtime value, as far as the server manipulates
them: `undefined`, `null`, booleans, (integer) numbers, strings, arrays
and plain objects. -/
inductive JVal where
  | undefined
  | null
  | bool (b : Bool)
  | num (n : Int)
  | str (s : String)
  | arr (xs : List JVal)
  | obj (fields : List (String × JVal))

/-- JavaScript truthiness: `undefined`, `null`, `false`, `0` and `""` are
falsy; everything else the server can see is truthy. -/
def truthy : JVal → Bool
  | .undefined => false
  | .null => false
  | .bool b => b
  | .num n => n != 0
  | .str s => s != ""
  | .arr _ => true
  | .obj _ => true

/-- Whether a value is `undefined` (used by destructuring defaults). -/
def isUndefined : JVal → Bool
  | .undefined => true
  | _ => false

mutual
/-- JavaScript string coercion, as in template literals `${v}`. -/
def jsToString : JVal → String
  | .undefined => "undefined"
  | .null => "null"
  | .bool true => "true"
  | .bool false => "false"
  | .num n => toString n
  | .str s => s
  | .arr xs => jsArrToString xs
  | .obj _ => "[object Object]"

/-- Coercion of an array: elements joined with `,`; `null` and `undefined`
elements render as empty. -/
def jsArrToString : List JVal → String
  | [] => ""
  | [JVal.undefined] => ""
  | [JVal.null] => ""
  | [x] => jsToString x
  | JVal.undefined :: xs => "," ++ jsArrToString xs
  | JVal.null :: xs => "," ++ jsArrToString xs
  | x :: xs => jsToString x ++ "," ++ jsArrToString xs
end

/-- JSON whitespace. -/
def isJsonWs (c : Char) : Bool :=
  c = ' ' || c = '\t' || c = '\n' || c = '\r'

/-- Skip leading JSON whitespace. -/
def skipWs : List Char → List Char
  | c :: cs => if isJsonWs c then skipWs cs else c :: cs
  | [] => []

/-- The character denoted by a JSON escape `\e`, when valid. -/
def escChar : Char → Option Char
  | '"' => some '"'
  | '\\' => some '\\'
  | '/' => some '/'
  | 'b' => some (Char.ofNat 8)
  | 'f' => some (Char.ofNat 12)
  | 'n' => some '\n'
  | 'r' => some '\r'
  | 't' => some '\t'
  | _ => none

/-- Parse the remainder of a JSON string literal (the opening quote already
consumed), handling the standard escapes. -/
def parseStringRest : List Char → Option (String × List Char)
  | [] => none
  | '"' :: cs => some ("", cs)
  | '\\' :: e :: cs =>
    match escChar e with
    | some c =>
      match parseStringRest cs with
      | some (s, rest) => some (String.mk (c :: s.data), rest)
      | none => none
    | none => none
  | '\\' :: [] => none
  | c :: cs =>
    match parseStringRest cs with
    | some (s, rest) => some (String.mk (c :: s.data), rest)
    | none => none

/-- Parse a nonempty run of decimal digits into a natural number. -/
def parseDigits : List Char → Option (Nat × List Char)
  | c :: cs =>
    if c.isDigit then
      match parseDigits cs with
      | some (n, rest) =>
        some ((c.toNat - '0'.toNat) * 10 ^ (cs.length - rest.length) + n, rest)
      | none => some (c.toNat - '0'.toNat, cs)
    else none
  | [] => none

mutual
/-- Fuel-indexed JSON value parser (model of `JSON.parse`, restricted to
integer numerals).  Returns the parsed value and the unconsumed input. -/
def parseVal : Nat → List Char → Option (JVal × List Char)
  | 0, _ => none
  | fuel + 1, cs =>
    match skipWs cs with
    | 'n' :: 'u' :: 'l' :: 'l' :: rest => some (.null, rest)
    | 't' :: 'r' :: 'u' :: 'e' :: rest => some (.bool true, rest)
    | 'f' :: 'a' :: 'l' :: 's' :: 'e' :: rest => some (.bool false, rest)
    | '"' :: rest =>
      (parseStringRest rest).map fun (s, rest') => (.str s, rest')
    | '[' :: rest =>
      (match skipWs rest with
       | ']' :: rest' => some (.arr [], rest')
       | rest' =>
         (parseVal fuel rest').bind fun (v, rest'') =>
           (parseArrItems fuel rest'').map fun (vs, rest3) =>
             (.arr (v :: vs), rest3))
    | '{' :: rest =>
      (match skipWs rest with
       | '}' :: rest' => some (.obj [], rest')
       | '"' :: rest' =>
         (parseStringRest rest').bind fun (k, rest'') =>
           (match skipWs rest'' with
            | ':' :: rest3 =>
              (parseVal fuel rest3).bind fun (v, rest4) =>
                (parseObjItems fuel rest4).map fun (fs, rest5) =>
                  (.obj ((k, v) :: fs), rest5)
            | _ => none)
       | _ => none)
    | '-' :: rest =>
      (parseDigits rest).map fun (n, rest') => (.num (-(n : Int)), rest')
    | rest =>
      (parseDigits rest).map fun (n, rest') => (.num (n : Int), rest')

/-- Parse the tail of a JSON array: `, v`* `]`. -/
def parseArrItems : Nat → List Char → Option (List JVal × List Char)
  | 0, _ => none
  | fuel + 1, cs =>
    match skipWs cs with
    | ']' :: rest => some ([], rest)
    | ',' :: rest =>
      (parseVal fuel rest).bind fun (v, rest') =>
        (parseArrItems fuel rest').map fun (vs, rest'') => (v :: vs, rest'')
    | _ => none

/-- Parse the tail of a JSON object: `, "k" : v`* `}`. -/
def parseObjItems : Nat → List Char → Option (List (String × JVal) × List Char)
  | 0, _ => none
  | fuel + 1, cs =>
    match skipWs cs with
    | '}' :: rest => some ([], rest)
    | ',' :: rest =>
      (match skipWs rest with
       | '"' :: rest' =>
         (parseStringRest rest').bind fun (k, rest'') =>
           (match skipWs rest'' with
            | ':' :: rest3 =>
              (parseVal fuel rest3).bind fun (v, rest4) =>
                (parseObjItems fuel rest4).map fun (fs, rest5) =>
                  ((k, v) :: fs, rest5)
            | _ => none)
       | _ => none)
    | _ => none
end

/-- Model of `JSON.parse`: parse a whole string as one JSON value, failing
if anything but whitespace remains.  `none` models a thrown `SyntaxError`. -/
def jsonParse (s : String) : Option JVal :=
  match parseVal (s.length + 1) s.data with
  | some (v, rest) => if skipWs rest = [] then some v else none
  | none => none

/-! ## Mail (`sendMailSafe`, Server.js lines 56–86) -/

/-- A configured transport's `sendMail` call: given recipient, subject and
html body, either succeeds or fails with an error message.  Models
`transporter.sendMail({from, to, subject, html})`. -/
abbrev SendFn := String → String → String → Except String Unit

/-- The module-level `transporter`: `none` models `transporter === null`
(not configured), `some f` a configured nodemailer transport. -/
abbrev Transporter := Option SendFn

/-- Console output the server produces on the paths modelled here. -/
inductive LogEntry where
  | skipWarn (dest : String)
  | sendFail (dest : String) (msg : String)
  | enrollError

/-- What one `sendMailSafe` call did: the log entries written and whether
the underlying transport's `sendMail` was invoked at all. -/
structure SendOutcome where
  log : List LogEntry
  attemptedDelivery : Bool

/-- Model of `sendMailSafe(to, subject, html)` (Server.js lines 71–86).
The result type is `Except` so that "never propagates an error to the
caller" is a statement and not a typing artifact: an uncaught exception
in the body would appear as `.error`. -/
def sendMailSafe (tr : Transporter) (dest subject html : String) :
    Except String SendOutcome :=
  match tr with
  | none => .ok ⟨[.skipWarn dest], false⟩
  | some send =>
    match send dest subject html with
    | .ok _ => .ok ⟨[], true⟩
    | .error e => .ok ⟨[.sendFail dest e], true⟩

/-! ## Store (`mysql2` pool, Server.js lines 41–54) -/

/-- A row of the `enrollments` table, as inserted by the enroll handler. -/
structure EnrollRow where
  name : JVal
  email : JVal
  phone : JVal
  status : JVal
  course_id : JVal

/-- The store state seen by the enroll handler: the `enrollments` table,
the next auto-increment id, and whether the next INSERT fails (modelling
connectivity/query errors the pool surfaces as a rejection). -/
structure DbState where
  enrollments : List EnrollRow
  nextId : Nat
  insertFails : Bool

/-- Model of
`db.query("INSERT INTO enrollments (...) VALUES (?, ?, ?, ?, ?)", [...])`:
on success the row is appended and the assigned `insertId` returned;
on failure the table is unchanged and the error propagates. -/
def dbInsertEnrollment (db : DbState) (r : EnrollRow) :
    Except String (Nat × DbState) :=
  if db.insertFails then .error "db error"
  else .ok (db.nextId,
    { db with enrollments := db.enrollments ++ [r], nextId := db.nextId + 1 })

/-! ## `POST /api/enroll` (Server.js lines 116–155) -/

/-- A request body for `/api/enroll`.  A field absent from the JSON body is
`JVal.undefined`, exactly as destructuring yields it. -/
structure EnrollReq where
  name : JVal
  email : JVal
  phone : JVal
  status : JVal
  courseId : JVal

/-- The three JSON responses the enroll handler can produce. -/
inductive EnrollResp where
  | missingFields
  | created (enrollmentId : Nat)
  | serverError

/-- The HTTP status code of an enroll response. -/
def EnrollResp.statusCode : EnrollResp → Nat
  | .missingFields => 400
  | .created _ => 201
  | .serverError => 500

/-- The `success` flag in the enroll response body. -/
def EnrollResp.success : EnrollResp → Bool
  | .missingFields => false
  | .created _ => true
  | .serverError => false

/-- The `message` string in the enroll response body. -/
def EnrollResp.message : EnrollResp → String
  | .missingFields => "All fields are required"
  | .created _ => "Enrollment successful, confirmation email sent"
  | .serverError => "Server error, please try again later"

/-- Everything one enroll request produced: response, resulting store
state, log, and the recipients passed to `sendMailSafe`, in call order. -/
structure EnrollOutcome where
  resp : EnrollResp
  db : DbState
  log : List LogEntry
  mailCalls : List String

/-- The fixed administrative notification address. -/
def adminEmail : String := "deeplearneracademy@gmail.com"

/-- `const { status = "Pending" } = req.body`: the default applies exactly
when the field is `undefined`. -/
def destructuredStatus (req : EnrollReq) : JVal :=
  if isUndefined req.status then .str "Pending" else req.status

/-- The HTML body of the admin notification (Server.js lines 131–134). -/
def adminHtml (req : EnrollReq) (status : JVal) : String :=
  "<h2>" ++ jsToString req.name ++ " enrolled in Course ID: "
    ++ jsToString req.courseId ++ "</h2>\n       <p>Email: "
    ++ jsToString req.email ++ "</p>\n       <p>Phone: "
    ++ jsToString req.phone ++ "</p>\n       <p>Status: "
    ++ jsToString status ++ "</p>"

/-- The HTML body of the enrollee confirmation (Server.js lines 140–143). -/
def userHtml (req : EnrollReq) : String :=
  "<h2>Hi " ++ jsToString req.name
    ++ ",</h2>\n       <p>You are successfully enrolled in course ID: "
    ++ jsToString req.courseId
    ++ "! 🎉</p>\n       <p>Our team will contact you soon.</p>\n       <br/>- Deep Learner Academy Team"

/-- Model of the `POST /api/enroll` handler (Server.js lines 116–155).
The `try` block covers the insert, both `await sendMailSafe` calls and the
201 response; any `Except.error` escaping inside it lands in the `catch`,
which answers 500 (without undoing a completed insert). -/
def enrollHandler (tr : Transporter) (db : DbState) (req : EnrollReq) :
    EnrollOutcome :=
  let status := destructuredStatus req
  if !truthy req.name || !truthy req.email || !truthy req.phone
      || !truthy req.courseId then
    ⟨.missingFields, db, [], []⟩
  else
    match dbInsertEnrollment db ⟨req.name, req.email, req.phone, status, req.courseId⟩ with
    | .error _ => ⟨.serverError, db, [.enrollError], []⟩
    | .ok (id, db') =>
      match sendMailSafe tr adminEmail "📩 New Enrollment" (adminHtml req status) with
      | .error _ => ⟨.serverError, db', [.enrollError], [adminEmail]⟩
      | .ok o1 =>
        match sendMailSafe tr (jsToString req.email) "✅ Enrollment Successful" (userHtml req) with
        | .error _ =>
          ⟨.serverError, db', o1.log ++ [.enrollError], [adminEmail, jsToString req.email]⟩
        | .ok o2 =>
          ⟨.created id, db', o1.log ++ o2.log, [adminEmail, jsToString req.email]⟩

/-! ## `GET /api/courses` and `GET /api/courses/:id` (Server.js 89–113) -/

/-- A row of the `courses` table as the pool returns it: the `syllabus`
column plus the remaining columns, untouched by these handlers. -/
structure CourseRow where
  syllabus : JVal
  rest : List (String × JVal)

/-- Outcome of a course SELECT: a row set, or a store failure (a rejected
query, landing in the handler's `catch`). -/
inductive QueryOutcome where
  | rows (rs : List CourseRow)
  | failure

/-- Responses of `GET /api/courses`. -/
inductive CourseListResp where
  | ok (rows : List CourseRow)
  | dbError

/-- The HTTP status code of a course-list response. -/
def CourseListResp.statusCode : CourseListResp → Nat
  | .ok _ => 200
  | .dbError => 500

/-- Model of `GET /api/courses` (Server.js lines 89–96): the rows are
serialized as-is, with no syllabus decoding. -/
def listCourses (q : QueryOutcome) : CourseListResp :=
  match q with
  | .rows rs => .ok rs
  | .failure => .dbError

/-- Responses of `GET /api/courses/:id`. -/
inductive CourseByIdResp where
  | ok (course : CourseRow)
  | notFound
  | serverError

/-- The HTTP status code of a course-by-id response. -/
def CourseByIdResp.statusCode : CourseByIdResp → Nat
  | .ok _ => 200
  | .notFound => 404
  | .serverError => 500

/-- The syllabus rewrite of the by-id handler (Server.js lines 105–107):
if the field is truthy and a string, `JSON.parse` it, substituting `[]`
when parsing throws; otherwise leave it alone. -/
def decodeSyllabus (v : JVal) : JVal :=
  match v with
  | .str s =>
    if s != "" then
      match jsonParse s with
      | some j => j
      | none => .arr []
    else .str s
  | v => v

/-- Model of `GET /api/courses/:id` (Server.js lines 98–113): the route is
parameterized by the outcome of the id lookup; an empty row set answers
404, a store failure 500, and otherwise the first row is returned with its
syllabus conditionally decoded. -/
def getCourseById (q : QueryOutcome) : CourseByIdResp :=
  match q with
  | .failure => .serverError
  | .rows [] => .notFound
  | .rows (r :: _) => .ok { r with syllabus := decodeSyllabus r.syllabus }

/-! ## Helper lemmas -/

/-- `sendMailSafe` always returns `.ok`: the unconfigured branch returns
early and the configured branch catches the send error. -/
theorem sendMailSafe_isOk (tr : Transporter) (dest subject html : String) :
    ∃ o, sendMailSafe tr dest subject html = .ok o := by
  cases tr with
  | none => exact ⟨_, rfl⟩
  | some send =>
    cases h : send dest subject html with
    | ok u => exact ⟨⟨[], true⟩, by simp [sendMailSafe, h]⟩
    | error e => exact ⟨⟨[.sendFail dest e], true⟩, by simp [sendMailSafe, h]⟩

/-- On a request with all four required fields truthy and a working store,
the enroll handler answers `created` with the store-assigned id, appends
exactly the one row, and calls `sendMailSafe` on the admin address and
then the enrollee address — for every transporter. -/
theorem enroll_success_core (tr : Transporter) (db : DbState) (req : EnrollReq)
    (hn : truthy req.name = true) (he : truthy req.email = true)
    (hp : truthy req.phone = true) (hc : truthy req.courseId = true)
    (hf : db.insertFails = false) :
    (enrollHandler tr db req).resp = .created db.nextId ∧
    (enrollHandler tr db req).db.enrollments
      = db.enrollments
        ++ [⟨req.name, req.email, req.phone, destructuredStatus req, req.courseId⟩] ∧
    (enrollHandler tr db req).mailCalls = [adminEmail, jsToString req.email] := by
  obtain ⟨o1, h1⟩ := sendMailSafe_isOk tr adminEmail "📩 New Enrollment"
    (adminHtml req (destructuredStatus req))
  obtain ⟨o2, h2⟩ := sendMailSafe_isOk tr (jsToString req.email)
    "✅ Enrollment Successful" (userHtml req)
  simp [enrollHandler, hn, he, hp, hc, dbInsertEnrollment, hf, h1, h2]

/-- When the required-fields check fires, the handler returns the 400
response immediately, leaving the store untouched and calling nothing. -/
theorem enroll_reject_core (tr : Transporter) (db : DbState) (req : EnrollReq)
    (h : (!truthy req.name || !truthy req.email || !truthy req.phone
           || !truthy req.courseId) = true) :
    enrollHandler tr db req = ⟨.missingFields, db, [], []⟩ := by
  simp only [enrollHandler, h, if_true]

/-- A single fetched row whose syllabus column holds the text `"[1,2,3]"`
is returned with the decoded array. -/
theorem getCourseById_decodes_arr123 (r : CourseRow)
    (h : r.syllabus = JVal.str "[1,2,3]") :
    getCourseById (.rows [r])
      = .ok { r with syllabus := .arr [.num 1, .num 2, .num 3] } := by
  have hd : decodeSyllabus (JVal.str "[1,2,3]")
      = .arr [.num 1, .num 2, .num 3] := rfl
  simp [getCourseById, h, hd]

/-! ## Claims -/

/-- C1: for every enrollment submission in which name, email, phone and
courseId are all present and non-empty, the handler inserts exactly one
enrollment row and responds with status 201, `success: true` and the
store-assigned insert identifier as `enrollmentId`; the response is the
same for every mail transporter (configured, unconfigured or failing). -/
theorem enroll_valid_inserts_and_201 (tr tr' : Transporter) (db : DbState)
    (req : EnrollReq)
    (hn : ∃ s, req.name = JVal.str s ∧ s ≠ "")
    (he : ∃ s, req.email = JVal.str s ∧ s ≠ "")
    (hp : ∃ s, req.phone = JVal.str s ∧ s ≠ "")
    (hc : truthy req.courseId = true)
    (hf : db.insertFails = false) :
    (enrollHandler tr db req).resp = .created db.nextId ∧
    (enrollHandler tr db req).resp.statusCode = 201 ∧
    (enrollHandler tr db req).resp.success = true ∧
    (enrollHandler tr db req).db.enrollments
      = db.enrollments
        ++ [⟨req.name, req.email, req.phone, destructuredStatus req, req.courseId⟩] ∧
    (enrollHandler tr' db req).resp = (enrollHandler tr db req).resp := by
  obtain ⟨s1, hs1, hne1⟩ := hn
  obtain ⟨s2, hs2, hne2⟩ := he
  obtain ⟨s3, hs3, hne3⟩ := hp
  have tn : truthy req.name = true := by simp [hs1, truthy, hne1]
  have te : truthy req.email = true := by simp [hs2, truthy, hne2]
  have tp : truthy req.phone = true := by simp [hs3, truthy, hne3]
  obtain ⟨r1, r2, r3⟩ := enroll_success_core tr db req tn te tp hc hf
  obtain ⟨r1', r2', r3'⟩ := enroll_success_core tr' db req tn te tp hc hf
  exact ⟨r1, by rw [r1]; rfl, by rw [r1]; rfl, r2, by rw [r1, r1']⟩

/-- C1 witness at a concrete valid request with an unconfigured
transporter (and a failing one for the response-equality leg). -/
theorem enroll_valid_inserts_and_201_witness :
    (enrollHandler none ⟨[], 1, false⟩
      ⟨JVal.str "Ann", JVal.str "ann@example.com", JVal.str "123",
       JVal.undefined, JVal.num 7⟩).resp = .created 1 :=
  (enroll_valid_inserts_and_201 none (some fun _ _ _ => Except.error "boom")
    ⟨[], 1, false⟩
    ⟨JVal.str "Ann", JVal.str "ann@example.com", JVal.str "123",
     JVal.undefined, JVal.num 7⟩
    ⟨"Ann", rfl, by decide⟩ ⟨"ann@example.com", rfl, by decide⟩
    ⟨"123", rfl, by decide⟩ rfl rfl).1

/-- C2: for every enrollment submission in which one of name, email, phone
or courseId is absent (`undefined`) or the empty string, the handler
responds 400 with `success: false`, the enrollment table is unchanged,
and no mail call is made. -/
theorem enroll_missing_field_400_no_insert (tr : Transporter) (db : DbState)
    (req : EnrollReq)
    (h : (req.name = JVal.undefined ∨ req.name = JVal.str "")
       ∨ (req.email = JVal.undefined ∨ req.email = JVal.str "")
       ∨ (req.phone = JVal.undefined ∨ req.phone = JVal.str "")
       ∨ (req.courseId = JVal.undefined ∨ req.courseId = JVal.str "")) :
    (enrollHandler tr db req).resp.statusCode = 400 ∧
    (enrollHandler tr db req).resp.success = false ∧
    (enrollHandler tr db req).db = db ∧
    (enrollHandler tr db req).mailCalls = [] := by
  have hcond : (!truthy req.name || !truthy req.email || !truthy req.phone
      || !truthy req.courseId) = true := by
    rcases h with (h | h) | (h | h) | (h | h) | (h | h) <;> simp [h, truthy]
  rw [enroll_reject_core tr db req hcond]
  exact ⟨rfl, rfl, rfl, rfl⟩

/-- C2 witness: a request missing its name is answered 400. -/
theorem enroll_missing_field_400_no_insert_witness :
    (enrollHandler none ⟨[], 1, false⟩
      ⟨JVal.undefined, JVal.str "a@b.c", JVal.str "1", JVal.undefined,
       JVal.num 2⟩).resp.statusCode = 400 :=
  (enroll_missing_field_400_no_insert none ⟨[], 1, false⟩
    ⟨JVal.undefined, JVal.str "a@b.c", JVal.str "1", JVal.undefined,
     JVal.num 2⟩ (Or.inl (Or.inl rfl))).1

/-- C3: `sendMailSafe` always returns normally (never `.error`); with no
transporter it writes the skip warning and attempts no delivery, and with
a transporter whose send fails it writes the failure log entry naming the
intended recipient and still returns `.ok`. -/
theorem sendMailSafe_never_throws (tr : Transporter)
    (dest subject html : String) :
    (∃ o, sendMailSafe tr dest subject html = .ok o) ∧
    (tr = none →
      sendMailSafe tr dest subject html = .ok ⟨[.skipWarn dest], false⟩) ∧
    (∀ send e, tr = some send → send dest subject html = .error e →
      sendMailSafe tr dest subject html = .ok ⟨[.sendFail dest e], true⟩) := by
  refine ⟨sendMailSafe_isOk tr dest subject html, ?_, ?_⟩
  · rintro rfl
    rfl
  · rintro send e rfl hsend
    simp [sendMailSafe, hsend]

/-- C3 witness: the unconfigured and the failing-transport cases at a
concrete recipient. -/
theorem sendMailSafe_never_throws_witness :
    sendMailSafe none "x@y.z" "s" "h" = .ok ⟨[.skipWarn "x@y.z"], false⟩ ∧
    sendMailSafe (some fun _ _ _ => Except.error "quota") "x@y.z" "s" "h"
      = .ok ⟨[.sendFail "x@y.z" "quota"], true⟩ :=
  ⟨(sendMailSafe_never_throws none "x@y.z" "s" "h").2.1 rfl,
   (sendMailSafe_never_throws (some fun _ _ _ => Except.error "quota")
     "x@y.z" "s" "h").2.2 _ "quota" rfl rfl⟩

/-- C4: when the looked-up row exists, its syllabus is conditionally
decoded: a column holding the text `"[1,2,3]"` yields `syllabus: [1,2,3]`,
and malformed text such as `"{not json"` yields `syllabus: []`, both with
status 200 and never a server error. -/
theorem getCourse_syllabus_decode_or_default (r : CourseRow) :
    (r.syllabus = JVal.str "[1,2,3]" →
      getCourseById (.rows [r])
        = .ok { r with syllabus := .arr [.num 1, .num 2, .num 3] } ∧
      (getCourseById (.rows [r])).statusCode = 200) ∧
    (r.syllabus = JVal.str "\x7bnot json" →
      getCourseById (.rows [r]) = .ok { r with syllabus := .arr [] } ∧
      (getCourseById (.rows [r])).statusCode = 200) := by
  have hd2 : decodeSyllabus (JVal.str "\x7bnot json") = .arr [] := rfl
  constructor
  · intro h
    constructor
    · exact getCourseById_decodes_arr123 r h
    · simp [getCourseById, CourseByIdResp.statusCode]
  · intro h
    constructor
    · simp [getCourseById, h, hd2]
    · simp [getCourseById, CourseByIdResp.statusCode]

/-- C4 witness: both syllabus columns at a concrete row. -/
theorem getCourse_syllabus_decode_or_default_witness :
    getCourseById (.rows [⟨JVal.str "[1,2,3]", []⟩])
      = .ok ⟨JVal.arr [.num 1, .num 2, .num 3], []⟩ ∧
    getCourseById (.rows [⟨JVal.str "\x7bnot json", []⟩])
      = .ok ⟨JVal.arr [], []⟩ :=
  ⟨((getCourse_syllabus_decode_or_default ⟨JVal.str "[1,2,3]", []⟩).1 rfl).1,
   ((getCourse_syllabus_decode_or_default ⟨JVal.str "\x7bnot json", []⟩).2 rfl).1⟩

/-- C5: after a successful insert, the two notification attempts happen in
order — the fixed administrative address first, then the enrollee's email —
for every transporter (in particular a failing one), and the response is
still 201 with the insert intact. -/
theorem enroll_notifications_ordered_isolated (tr : Transporter)
    (db : DbState) (req : EnrollReq)
    (hn : truthy req.name = true) (he : truthy req.email = true)
    (hp : truthy req.phone = true) (hc : truthy req.courseId = true)
    (hf : db.insertFails = false) :
    (enrollHandler tr db req).mailCalls = [adminEmail, jsToString req.email] ∧
    (enrollHandler tr db req).resp = .created db.nextId ∧
    (enrollHandler tr db req).resp.statusCode = 201 ∧
    (enrollHandler tr db req).db.enrollments
      = db.enrollments
        ++ [⟨req.name, req.email, req.phone, destructuredStatus req, req.courseId⟩] := by
  obtain ⟨r1, r2, r3⟩ := enroll_success_core tr db req hn he hp hc hf
  exact ⟨r3, r1, by rw [r1]; rfl, r2⟩

/-- C5 witness: a transporter that fails on every send still produces both
mail calls in order and a 201. -/
theorem enroll_notifications_ordered_isolated_witness :
    (enrollHandler (some fun _ _ _ => Except.error "down") ⟨[], 1, false⟩
      ⟨JVal.str "Bob", JVal.str "bob@x.io", JVal.str "9", JVal.undefined,
       JVal.num 3⟩).mailCalls = [adminEmail, "bob@x.io"] :=
  (enroll_notifications_ordered_isolated (some fun _ _ _ => Except.error "down")
    ⟨[], 1, false⟩
    ⟨JVal.str "Bob", JVal.str "bob@x.io", JVal.str "9", JVal.undefined,
     JVal.num 3⟩ rfl rfl rfl rfl rfl).1

/-- C6: if the enrollment insert fails, the handler answers 500 with
`success: false`, the store is unchanged, and no `sendMailSafe` call is
made at all. -/
theorem enroll_insert_failure_500_no_mail (tr : Transporter) (db : DbState)
    (req : EnrollReq)
    (hn : truthy req.name = true) (he : truthy req.email = true)
    (hp : truthy req.phone = true) (hc : truthy req.courseId = true)
    (hf : db.insertFails = true) :
    (enrollHandler tr db req).resp = .serverError ∧
    (enrollHandler tr db req).resp.statusCode = 500 ∧
    (enrollHandler tr db req).resp.success = false ∧
    (enrollHandler tr db req).db = db ∧
    (enrollHandler tr db req).mailCalls = [] := by
  simp [enrollHandler, hn, he, hp, hc, dbInsertEnrollment, hf,
    EnrollResp.statusCode, EnrollResp.success]

/-- C6 witness: a failing store at a concrete valid request. -/
theorem enroll_insert_failure_500_no_mail_witness :
    (enrollHandler none ⟨[], 1, true⟩
      ⟨JVal.str "Cal", JVal.str "c@d.e", JVal.str "5", JVal.undefined,
       JVal.num 4⟩).mailCalls = [] :=
  (enroll_insert_failure_500_no_mail none ⟨[], 1, true⟩
    ⟨JVal.str "Cal", JVal.str "c@d.e", JVal.str "5", JVal.undefined,
     JVal.num 4⟩ rfl rfl rfl rfl rfl).2.2.2.2

/-- C7: the by-id route distinguishes its failure modes — an empty row set
answers 404 "not found" and a store failure answers 500; the two statuses
are distinct. -/
theorem getCourse_notFound_vs_serverError :
    getCourseById (.rows []) = .notFound ∧
    (getCourseById (.rows [])).statusCode = 404 ∧
    getCourseById .failure = .serverError ∧
    (getCourseById .failure).statusCode = 500 ∧
    (getCourseById (.rows [])).statusCode ≠ (getCourseById .failure).statusCode :=
  ⟨rfl, rfl, rfl, rfl, by decide⟩

/-- C8: listing returns every fetched row exactly as stored, with no
syllabus decoding, while the single-course route does decode: a row whose
syllabus column holds `"[1,2,3]"` is listed with the raw text but fetched
by id with the decoded sequence. -/
theorem listCourses_raw_vs_getCourse_decoded (rs : List CourseRow)
    (r : CourseRow) (h : r.syllabus = JVal.str "[1,2,3]") :
    listCourses (.rows rs) = .ok rs ∧
    listCourses (.rows [r]) = .ok [r] ∧
    getCourseById (.rows [r])
      = .ok { r with syllabus := .arr [.num 1, .num 2, .num 3] } := by
  exact ⟨rfl, rfl, getCourseById_decodes_arr123 r h⟩

/-- C8 witness: the asymmetry at a concrete row. -/
theorem listCourses_raw_vs_getCourse_decoded_witness :
    listCourses (.rows [⟨JVal.str "[1,2,3]", []⟩])
      = .ok [⟨JVal.str "[1,2,3]", []⟩] ∧
    getCourseById (.rows [⟨JVal.str "[1,2,3]", []⟩])
      = .ok ⟨JVal.arr [.num 1, .num 2, .num 3], []⟩ :=
  ⟨(listCourses_raw_vs_getCourse_decoded [⟨JVal.str "[1,2,3]", []⟩]
      ⟨JVal.str "[1,2,3]", []⟩ rfl).2.1,
   (listCourses_raw_vs_getCourse_decoded [⟨JVal.str "[1,2,3]", []⟩]
      ⟨JVal.str "[1,2,3]", []⟩ rfl).2.2⟩

/-- C9: the "Pending" default applies only when `status` is entirely
absent (`undefined`); a `status` supplied as `null` or the empty string is
inserted unchanged, is never rejected by validation, and only the
`undefined` case produces "Pending". -/
theorem enroll_status_default_only_when_undefined (tr : Transporter)
    (db : DbState) (req : EnrollReq)
    (hn : truthy req.name = true) (he : truthy req.email = true)
    (hp : truthy req.phone = true) (hc : truthy req.courseId = true)
    (hf : db.insertFails = false)
    (hs : req.status = JVal.null ∨ req.status = JVal.str "") :
    (enrollHandler tr db req).db.enrollments
      = db.enrollments
        ++ [⟨req.name, req.email, req.phone, req.status, req.courseId⟩] ∧
    (enrollHandler tr db req).resp = .created db.nextId ∧
    destructuredStatus { req with status := JVal.undefined }
      = .str "Pending" := by
  have hds : destructuredStatus req = req.status := by
    rcases hs with h | h <;> simp [destructuredStatus, h, isUndefined]
  obtain ⟨r1, r2, r3⟩ := enroll_success_core tr db req hn he hp hc hf
  refine ⟨?_, r1, rfl⟩
  rw [r2, hds]

/-- C9 witness: an explicit `null` status is stored as `null`. -/
theorem enroll_status_default_only_when_undefined_witness :
    (enrollHandler none ⟨[], 1, false⟩
      ⟨JVal.str "Dee", JVal.str "d@e.f", JVal.str "8", JVal.null,
       JVal.num 2⟩).db.enrollments
      = [⟨JVal.str "Dee", JVal.str "d@e.f", JVal.str "8", JVal.null,
          JVal.num 2⟩] :=
  (enroll_status_default_only_when_undefined none ⟨[], 1, false⟩
    ⟨JVal.str "Dee", JVal.str "d@e.f", JVal.str "8", JVal.null, JVal.num 2⟩
    rfl rfl rfl rfl rfl (Or.inl rfl)).1

/-- C10: validation tests falsiness, not absence — a required field
supplied as `false` or `0` (in particular `courseId: 0`) is answered with
the same 400 "All fields are required" response as omitting the field. -/
theorem enroll_falsy_fields_rejected (tr : Transporter) (db : DbState)
    (req : EnrollReq)
    (h : req.name = JVal.bool false ∨ req.name = JVal.num 0
       ∨ req.email = JVal.bool false ∨ req.email = JVal.num 0
       ∨ req.phone = JVal.bool false ∨ req.phone = JVal.num 0
       ∨ req.courseId = JVal.bool false ∨ req.courseId = JVal.num 0) :
    enrollHandler tr db req = ⟨.missingFields, db, [], []⟩ ∧
    (enrollHandler tr db req).resp.statusCode = 400 ∧
    (enrollHandler tr db req).resp.message = "All fields are required" ∧
    (enrollHandler tr db
        ⟨JVal.undefined, JVal.undefined, JVal.undefined, JVal.undefined,
         JVal.undefined⟩).resp
      = (enrollHandler tr db req).resp := by
  have hcond : (!truthy req.name || !truthy req.email || !truthy req.phone
      || !truthy req.courseId) = true := by
    rcases h with h | h | h | h | h | h | h | h <;> simp [h, truthy]
  have h1 := enroll_reject_core tr db req hcond
  have h2 := enroll_reject_core tr db
    ⟨JVal.undefined, JVal.undefined, JVal.undefined, JVal.undefined,
     JVal.undefined⟩ rfl
  exact ⟨h1, by rw [h1]; rfl, by rw [h1]; rfl, by rw [h1, h2]⟩

/-- C10 witness: `courseId: 0` with every other field filled is rejected
with 400. -/
theorem enroll_falsy_fields_rejected_witness :
    (enrollHandler none ⟨[], 1, false⟩
      ⟨JVal.str "Eve", JVal.str "e@f.g", JVal.str "2", JVal.undefined,
       JVal.num 0⟩).resp.statusCode = 400 :=
  (enroll_falsy_fields_rejected none ⟨[], 1, false⟩
    ⟨JVal.str "Eve", JVal.str "e@f.g", JVal.str "2", JVal.undefined,
     JVal.num 0⟩
    (Or.inr (Or.inr (Or.inr (Or.inr (Or.inr (Or.inr (Or.inr rfl)))))))).2.1

end DeepLearner
